import Mathlib

/-!
Shallow embedding of the consensus-based judging engine in
`scripts/bench-postprocess-scripts/llm-judges/llm_judge.py`
(function `evaluate_with_openai`).

Python floats are modelled as rationals (`ℚ`).  One call to the external
judge service is modelled by a `CallOutcome`: either the service raised an
exception, or it returned text whose parse-relevant content is a
`RawResponse`.  `RawResponse.invalid msg` models text on which
`json.loads` raises `json.JSONDecodeError` with message `msg`;
`RawResponse.obj score` models text that decodes to a JSON object whose
`score` member is absent (`none`), a value on which Python `float(...)`
succeeds (`some (.num q)`), a value on which `float(...)` raises
`ValueError` with message `msg` (`some (.nonNumeric msg)`, a non-numeric
string), or a value on which `float(...)` raises `TypeError` with message
`msg` (`some (.badType msg)`, e.g. null, a list or an object).  The
`TypeError` is not caught by the `(json.JSONDecodeError, ValueError)`
handler: it escapes to the generic `except Exception` of the round-trip
loop, which re-raises it immediately, so it aborts the evaluation with no
retry.
The whole evaluation is driven by a stubbed stream of call outcomes,
consumed one element per round trip, so that round-trip counts are
observable.  Sleep calls (`time.sleep(1)`) are counted as well.
-/

namespace LlmJudge

/-- Parse-relevant content of the `score` member of a decoded JSON
object: a value on which `float(...)` succeeds giving `q`; a non-numeric
string, on which `float(...)` raises `ValueError(msg)`; or a value of
non-string non-numeric type (null, list, object), on which `float(...)`
raises `TypeError(msg)`. -/
inductive ScoreField where
  | num (q : ℚ)
  | nonNumeric (msg : String)
  | badType (msg : String)
deriving DecidableEq

/-- Parse-relevant content of one raw judge response text. -/
inductive RawResponse where
  | invalid (msg : String)
  | obj (score : Option ScoreField)
deriving DecidableEq

/-- Outcome of one round trip to the judge service. -/
inductive CallOutcome where
  | response (r : RawResponse)
  | apiError (msg : String)
deriving DecidableEq

/-- The Python exceptions that can escape `evaluate_with_openai`.
`valueError msg` models `ValueError(msg)`; `typeError msg` models
`TypeError(msg)` (raised by `float(...)` on a score value of non-string
non-numeric type); `apiError msg` models a service exception `e` with
`str(e) = msg`; `stubEnd` is a modelling artifact reported when the
stubbed response stream runs out. -/
inductive PyExc where
  | valueError (msg : String)
  | typeError (msg : String)
  | apiError (msg : String)
  | stubEnd
deriving DecidableEq

/-- `str(e)` of a modelled exception. -/
def excMsg : PyExc → String
  | .valueError m => m
  | .typeError m => m
  | .apiError m => m
  | .stubEnd => "stub response stream exhausted"

/-- Python `min(a, b)`: returns `a` when the two are equal. -/
def pyMin (a b : ℚ) : ℚ := if b < a then b else a

/-- Python `max(a, b)`: returns `a` when the two are equal. -/
def pyMax (a b : ℚ) : ℚ := if a < b then b else a

/-- `max(0.0, min(score, rubric_max_score))` from the source. -/
def clampScore (rubricMaxScore score : ℚ) : ℚ :=
  pyMax 0 (pyMin score rubricMaxScore)

/-- Result of one parse attempt on a raw response: a clamped score; a
failure caught by the `(json.JSONDecodeError, ValueError)` handler and so
retried (`malformed`); or a `TypeError` from `float(...)` that this
handler does not catch (`uncaught`), which escapes the parse block. -/
inductive ParseOutcome where
  | ok (q : ℚ)
  | malformed (msg : String)
  | uncaught (msg : String)
deriving DecidableEq

/-- The parse step of the source:
`evaluation = json.loads(response_text)`,
`score = float(evaluation.get("score", 0.0))`,
`score = max(0.0, min(score, rubric_max_score))`,
with `json.JSONDecodeError` and `ValueError` both caught by the retry
handler (`malformed`), while a `TypeError` from `float(...)` is not
caught there (`uncaught`).  Note that a decoded object without a `score`
member is accepted: `.get` supplies the default `0.0`. -/
def parseResponse (rubricMaxScore : ℚ) : RawResponse → ParseOutcome
  | .invalid msg => .malformed msg
  | .obj none => .ok (clampScore rubricMaxScore 0)
  | .obj (some (.num q)) => .ok (clampScore rubricMaxScore q)
  | .obj (some (.nonNumeric msg)) => .malformed msg
  | .obj (some (.badType msg)) => .uncaught msg

/-- `charsLead n h` is true when `n` is a leading segment of `h`. -/
def charsLead : List Char → List Char → Bool
  | [], _ => true
  | _ :: _, [] => false
  | a :: as, b :: bs => a == b && charsLead as bs

/-- `charsSub n h` is true when `n` occurs contiguously inside `h`. -/
def charsSub (needle : List Char) : List Char → Bool
  | [] => needle.isEmpty
  | b :: bs => charsLead needle (b :: bs) || charsSub needle bs

/-- Python `needle in hay` on strings. -/
def strContains (hay needle : String) : Bool :=
  charsSub needle.toList hay.toList

/-- The top-level handler of the source:
`except Exception as e: if "OPENAI_API_KEY" in str(e): raise` else
`raise ValueError(f"OpenAI evaluation failed: {str(e)}")`. -/
def wrapTopLevel (e : PyExc) : PyExc :=
  if strContains (excMsg e) "OPENAI_API_KEY" then e
  else .valueError ("OpenAI evaluation failed: " ++ excMsg e)

/-- Occurrence counts of the list of collected scores, maximised:
`max(Counter(scores).values())` (0 for the empty list, which the source
never queries). -/
def maxCount (l : List ℚ) : Nat :=
  (l.map fun q => l.count q).foldr max 0

/-- `Counter(scores).most_common(1)[0][0]` in CPython: counters preserve
first-occurrence insertion order and `most_common` is stable, so the
result is the earliest-first-seen element among those whose occurrence
count is maximal. -/
def mostCommon (l : List ℚ) : Option ℚ :=
  l.find? fun q => l.count q == maxCount l

/-- `mostCommon` with a default for the empty list (the source indexes
`most_common(1)[0]` only on nonempty score lists). -/
def mostCommonD (l : List ℚ) : ℚ :=
  (mostCommon l).getD 0

/-- The tie-break trigger of the source:
`len(scores) == 3 and max(score_counts.values()) == 1`. -/
def needsTieBreak (scores : List ℚ) : Bool :=
  scores.length == 3 && maxCount scores == 1

/-- Message built by the sampling loop when its retry budget is spent. -/
def mainExhaustPre : String :=
  "Failed to parse OpenAI evaluation response after 5 attempts: "

/-- Message built by the tie-break loop when its retry budget is spent. -/
def tieExhaustPre : String :=
  "Failed to parse tie-breaker response after 5 attempts: "

/-- Message of the `ValueError` raised when `OPENAI_API_KEY` is unset. -/
def keyMissingMsg : String :=
  "OPENAI_API_KEY environment variable is not set, but is needed to run this evaluation."

/-- Result of one retry loop (`while retry_count < max_retries`) for a
single sample slot: outcome, the unconsumed remainder of the stubbed
stream, the number of round trips issued, the number of `time.sleep(1)`
calls made. -/
structure SlotResult where
  outcome : Except PyExc ℚ
  rest : List CallOutcome
  calls : Nat
  sleeps : Nat

/-- The retry loop of the source, with `fuel` the number of attempts still
allowed (`max_retries - retry_count`, initially 5).  Each iteration issues
one round trip; a service exception is re-raised at once (`except
Exception as e: raise`), and so is an uncaught `TypeError` escaping the
parse block, which that same generic handler re-raises; a parse failure
with no budget left raises `ValueError(pre ++ msg)` where `msg` is the
last parse error; otherwise the loop sleeps 1 second and retries.  The
`fuel = 0` case is unreachable from the initial budget of 5. -/
def attemptLoop (rubricMaxScore : ℚ) (pre : String) :
    Nat → List CallOutcome → SlotResult
  | 0, stream => ⟨.error (.valueError "retry loop made no attempt"), stream, 0, 0⟩
  | _ + 1, [] => ⟨.error .stubEnd, [], 0, 0⟩
  | _ + 1, .apiError msg :: rest => ⟨.error (.apiError msg), rest, 1, 0⟩
  | n + 1, .response r :: rest =>
    match parseResponse rubricMaxScore r with
    | .ok q => ⟨.ok q, rest, 1, 0⟩
    | .uncaught msg => ⟨.error (.typeError msg), rest, 1, 0⟩
    | .malformed msg =>
      if n = 0 then ⟨.error (.valueError (pre ++ msg)), rest, 1, 0⟩
      else
        let r2 := attemptLoop rubricMaxScore pre n rest
        ⟨r2.outcome, r2.rest, r2.calls + 1, r2.sleeps + 1⟩

/-- Result of the sampling `for` loop: the collected scores in order, the
unconsumed stream, total round trips, total sleeps. -/
structure SamplesResult where
  outcome : Except PyExc (List ℚ)
  rest : List CallOutcome
  calls : Nat
  sleeps : Nat

/-- `for i in range(k)` of the source: `k` sample slots obtained
sequentially, each through a fresh 5-attempt retry loop. -/
def sampleSlots (rubricMaxScore : ℚ) :
    Nat → List CallOutcome → SamplesResult
  | 0, stream => ⟨.ok [], stream, 0, 0⟩
  | k + 1, stream =>
    let r1 := attemptLoop rubricMaxScore mainExhaustPre 5 stream
    match r1.outcome with
    | .error e => ⟨.error e, r1.rest, r1.calls, r1.sleeps⟩
    | .ok q =>
      let r2 := sampleSlots rubricMaxScore k r1.rest
      match r2.outcome with
      | .error e => ⟨.error e, r2.rest, r1.calls + r2.calls, r1.sleeps + r2.sleeps⟩
      | .ok qs => ⟨.ok (q :: qs), r2.rest, r1.calls + r2.calls, r1.sleeps + r2.sleeps⟩

/-- What a completed evaluation observably produced: the value returned by
the Python function (`finalScore`), together with the collected score list
and whether the tie-break round ran (both observable through the printed
trace of the source). -/
structure Trace where
  finalScore : ℚ
  scores : List ℚ
  tieBroken : Bool
deriving DecidableEq

/-- Outcome of the whole evaluation together with its round-trip and
sleep counts. -/
structure EvalOutcome where
  outcome : Except PyExc Trace
  calls : Nat
  sleeps : Nat

/-- Body of the big `try` of the source: collect 3 samples, check
`len(scores) == 3 and max(score_counts.values()) == 1`, run the single
tie-break retry loop when it holds, and return
`score_counts.most_common(1)[0][0]`. -/
def evalBody (rubricMaxScore : ℚ) (stream : List CallOutcome) : EvalOutcome :=
  let s3 := sampleSlots rubricMaxScore 3 stream
  match s3.outcome with
  | .error e => ⟨.error e, s3.calls, s3.sleeps⟩
  | .ok scores =>
    if needsTieBreak scores then
      let r4 := attemptLoop rubricMaxScore tieExhaustPre 5 s3.rest
      match r4.outcome with
      | .error e => ⟨.error e, s3.calls + r4.calls, s3.sleeps + r4.sleeps⟩
      | .ok q =>
        ⟨.ok ⟨mostCommonD (scores ++ [q]), scores ++ [q], true⟩,
          s3.calls + r4.calls, s3.sleeps + r4.sleeps⟩
    else
      ⟨.ok ⟨mostCommonD scores, scores, false⟩, s3.calls, s3.sleeps⟩

/-- Python truthiness of `not api_key` for
`api_key = os.getenv("OPENAI_API_KEY")`: unset or empty. -/
def keyMissing : Option String → Bool
  | none => true
  | some s => s.isEmpty

/-- `evaluate_with_openai`: checks the credential before any call (the
raise sits outside the big `try`, so it is never wrapped), then runs the
body; any exception escaping the body passes through the top-level
handler `wrapTopLevel`. -/
def evaluateWithOpenai (apiKey : Option String) (rubricMaxScore : ℚ)
    (stream : List CallOutcome) : EvalOutcome :=
  if keyMissing apiKey then ⟨.error (.valueError keyMissingMsg), 0, 0⟩
  else
    let r := evalBody rubricMaxScore stream
    match r.outcome with
    | .error e => ⟨.error (wrapTopLevel e), r.calls, r.sleeps⟩
    | .ok t => ⟨.ok t, r.calls, r.sleeps⟩

/-- A stubbed judge response that decodes to an object whose `score`
member is the number `q`. -/
def respNum (q : ℚ) : CallOutcome :=
  .response (.obj (some (.num q)))

theorem le_foldr_max {x : ℕ} : ∀ {xs : List ℕ}, x ∈ xs → x ≤ xs.foldr max 0 := by
  intro xs
  induction xs with
  | nil => intro h; cases h
  | cons y ys ih =>
    intro h
    rcases List.mem_cons.mp h with rfl | h2
    · exact le_max_left _ _
    · exact le_trans (ih h2) (le_max_right _ _)

theorem foldr_max_mem : ∀ xs : List ℕ, xs.foldr max 0 ∈ xs ∨ xs.foldr max 0 = 0 := by
  intro xs
  induction xs with
  | nil => exact Or.inr rfl
  | cons y ys ih =>
    rcases max_choice y (ys.foldr max 0) with hc | hc
    · exact Or.inl (by rw [List.foldr_cons, hc]; exact List.mem_cons_self y ys)
    · rcases ih with h2 | h2
      · exact Or.inl (by rw [List.foldr_cons, hc]; exact List.mem_cons_of_mem y h2)
      · exact Or.inr (by rw [List.foldr_cons, hc, h2])

theorem count_le_maxCount {l : List ℚ} {a : ℚ} (h : a ∈ l) :
    l.count a ≤ maxCount l :=
  le_foldr_max (List.mem_map_of_mem (fun q => l.count q) h)

theorem maxCount_attained {l : List ℚ} (hl : l ≠ []) :
    ∃ a ∈ l, l.count a = maxCount l := by
  rcases foldr_max_mem (l.map fun q => l.count q) with h | h
  · rcases List.mem_map.mp h with ⟨a, ha, hc⟩
    exact ⟨a, ha, hc⟩
  · exfalso
    rcases List.exists_mem_of_ne_nil l hl with ⟨a, ha⟩
    have h1 : 1 ≤ l.count a := List.one_le_count_iff.mpr ha
    have h2 : l.count a ≤ maxCount l := count_le_maxCount ha
    rw [maxCount, h] at h2
    omega

theorem mostCommon_eq_some {l : List ℚ} (hl : l ≠ []) :
    ∃ m, mostCommon l = some m := by
  rcases maxCount_attained hl with ⟨a, ha, hc⟩
  have : (l.find? fun q => l.count q == maxCount l).isSome :=
    List.find?_isSome.mpr ⟨a, ha, by simpa using hc⟩
  rcases Option.isSome_iff_exists.mp this with ⟨m, hm⟩
  exact ⟨m, hm⟩

theorem mostCommon_spec {l : List ℚ} {m : ℚ} (h : mostCommon l = some m) :
    m ∈ l ∧ l.count m = maxCount l := by
  refine ⟨List.mem_of_find?_eq_some h, ?_⟩
  have := List.find?_some h
  simpa using this

theorem find?_indexOf_le {p : ℚ → Bool} :
    ∀ {l : List ℚ} {m : ℚ}, l.find? p = some m →
      ∀ q ∈ l, p q → l.indexOf m ≤ l.indexOf q := by
  intro l
  induction l with
  | nil => intro m h; cases h
  | cons x xs ih =>
    intro m h q hq hpq
    rcases hx : p x with _ | _
    · rw [List.find?_cons_of_neg _ (by simp [hx])] at h
      have hpm : p m := List.find?_some h
      have hmx : x ≠ m := by
        intro e; rw [← e, hx] at hpm; cases hpm
      have hqx : x ≠ q := by
        intro e; rw [← e, hx] at hpq; cases hpq
      rcases List.mem_cons.mp hq with rfl | hq2
      · exact absurd rfl hqx
      · rw [List.indexOf_cons_ne _ hmx, List.indexOf_cons_ne _ hqx]
        exact Nat.succ_le_succ (ih h q hq2 hpq)
    · rw [List.find?_cons_of_pos _ hx] at h
      cases h
      rw [List.indexOf_cons_self]
      exact Nat.zero_le _

theorem mostCommonD_mem {l : List ℚ} (hl : l ≠ []) : mostCommonD l ∈ l := by
  rcases mostCommon_eq_some hl with ⟨m, hm⟩
  rw [mostCommonD, hm, Option.getD_some]
  exact (mostCommon_spec hm).1

theorem count_mostCommonD_eq_maxCount {l : List ℚ} (hl : l ≠ []) :
    l.count (mostCommonD l) = maxCount l := by
  rcases mostCommon_eq_some hl with ⟨m, hm⟩
  rw [mostCommonD, hm, Option.getD_some]
  exact (mostCommon_spec hm).2

theorem count_le_count_mostCommonD {l : List ℚ} (hl : l ≠ []) {q : ℚ} (hq : q ∈ l) :
    l.count q ≤ l.count (mostCommonD l) := by
  rw [count_mostCommonD_eq_maxCount hl]
  exact count_le_maxCount hq

theorem mostCommonD_earliest {l : List ℚ} (hl : l ≠ []) {q : ℚ} (hq : q ∈ l)
    (hc : l.count q = l.count (mostCommonD l)) :
    l.indexOf (mostCommonD l) ≤ l.indexOf q := by
  rcases mostCommon_eq_some hl with ⟨m, hm⟩
  have hd : mostCommonD l = m := by rw [mostCommonD, hm, Option.getD_some]
  rw [hd] at hc ⊢
  have hcm : l.count m = maxCount l := (mostCommon_spec hm).2
  exact find?_indexOf_le hm q hq (by simp [hc, hcm])

theorem sampleSlots_ok_length {M : ℚ} :
    ∀ {k : Nat} {s : List CallOutcome} {qs : List ℚ},
      (sampleSlots M k s).outcome = .ok qs → qs.length = k := by
  intro k
  induction k with
  | zero =>
    intro s qs h
    simp only [sampleSlots] at h
    cases h
    rfl
  | succ k ih =>
    intro s qs h
    simp only [sampleSlots] at h
    rcases h1 : (attemptLoop M mainExhaustPre 5 s).outcome with e | q
    · rw [h1] at h; cases h
    · rw [h1] at h
      rcases h2 : (sampleSlots M k (attemptLoop M mainExhaustPre 5 s).rest).outcome with e | qs2
      · rw [h2] at h; cases h
      · rw [h2] at h
        cases h
        simpa using ih h2

theorem evalBody_ok {M : ℚ} {s : List CallOutcome} {t : Trace}
    (h : (evalBody M s).outcome = .ok t) :
    t.finalScore = mostCommonD t.scores ∧
    t.tieBroken = needsTieBreak (t.scores.take 3) ∧
    ((t.tieBroken = false ∧ t.scores.length = 3) ∨
      (t.tieBroken = true ∧ t.scores.length = 4)) := by
  simp only [evalBody] at h
  rcases hs : (sampleSlots M 3 s).outcome with e | scores
  · rw [hs] at h; cases h
  · rw [hs] at h
    dsimp only at h
    have hlen : scores.length = 3 := sampleSlots_ok_length hs
    by_cases ht : needsTieBreak scores = true
    · rw [if_pos ht] at h
      rcases h4 : (attemptLoop M tieExhaustPre 5 (sampleSlots M 3 s).rest).outcome with e | q
      · rw [h4] at h; cases h
      · rw [h4] at h
        cases h
        have htake : (scores ++ [q]).take 3 = scores := by
          rw [← hlen]
          exact List.take_left scores [q]
        refine ⟨rfl, ?_, Or.inr ⟨rfl, by simp [hlen]⟩⟩
        simp [htake, ht]
    · rw [if_neg ht] at h
      cases h
      have htake : scores.take 3 = scores := by
        rw [← hlen]; exact List.take_length scores
      refine ⟨rfl, ?_, Or.inl ⟨rfl, hlen⟩⟩
      simp [htake]
      exact (Bool.not_eq_true _).mp ht

theorem eval_ok_body {key : Option String} {M : ℚ} {s : List CallOutcome} {t : Trace}
    (h : (evaluateWithOpenai key M s).outcome = .ok t) :
    (evalBody M s).outcome = .ok t := by
  simp only [evaluateWithOpenai] at h
  by_cases hk : keyMissing key = true
  · rw [if_pos hk] at h; cases h
  · rw [if_neg hk] at h
    rcases hb : (evalBody M s).outcome with e | t2
    · rw [hb] at h; cases h
    · rw [hb] at h
      cases h
      rfl

theorem eval_ok_spec {key : Option String} {M : ℚ} {s : List CallOutcome} {t : Trace}
    (h : (evaluateWithOpenai key M s).outcome = .ok t) :
    t.finalScore = mostCommonD t.scores ∧
    t.tieBroken = needsTieBreak (t.scores.take 3) ∧
    ((t.tieBroken = false ∧ t.scores.length = 3) ∨
      (t.tieBroken = true ∧ t.scores.length = 4)) :=
  evalBody_ok (eval_ok_body h)

theorem eval_ok_scores_ne_nil {key : Option String} {M : ℚ} {s : List CallOutcome}
    {t : Trace} (h : (evaluateWithOpenai key M s).outcome = .ok t) :
    t.scores ≠ [] := by
  rcases (eval_ok_spec h).2.2 with ⟨_, hlen⟩ | ⟨_, hlen⟩ <;>
    exact List.ne_nil_of_length_pos (by omega)

theorem count_three (x a b c : ℚ) :
    List.count x [a, b, c] =
      (if a = x then 1 else 0) + (if b = x then 1 else 0) + (if c = x then 1 else 0) := by
  by_cases h1 : a = x <;> by_cases h2 : b = x <;> by_cases h3 : c = x <;>
    simp [List.count_cons, List.count_nil, h1, h2, h3]

theorem maxCount_three (a b c : ℚ) :
    maxCount [a, b, c] =
      max (List.count a [a, b, c])
        (max (List.count b [a, b, c]) (List.count c [a, b, c])) := by
  simp [maxCount]

theorem maxCount_three_eq_one_iff (a b c : ℚ) :
    maxCount [a, b, c] = 1 ↔ a ≠ b ∧ a ≠ c ∧ b ≠ c := by
  rw [maxCount_three, count_three a a b c, count_three b a b c, count_three c a b c]
  by_cases hab : a = b
  · subst hab
    by_cases hac : a = c
    · subst hac
      simp
    · simp [hac, Ne.symm hac]
  · by_cases hac : a = c
    · subst hac
      simp [hab, Ne.symm hab]
    · by_cases hbc : b = c
      · subst hbc
        simp [hab, Ne.symm hab]
      · simp [hab, Ne.symm hab, hac, Ne.symm hac, hbc, Ne.symm hbc]

theorem plurality_three_iff (a b c : ℚ) :
    (∃ q ∈ ([a, b, c] : List ℚ), ∀ r ∈ ([a, b, c] : List ℚ), r ≠ q →
        List.count r [a, b, c] < List.count q [a, b, c]) ↔
      ¬(a ≠ b ∧ a ≠ c ∧ b ≠ c) := by
  constructor
  · rintro ⟨q, hq, hall⟩ ⟨hab, hac, hbc⟩
    have hca : List.count a [a, b, c] = 1 := by
      rw [count_three]; simp [Ne.symm hab, Ne.symm hac]
    have hcb : List.count b [a, b, c] = 1 := by
      rw [count_three]; simp [hab, Ne.symm hbc]
    have hcc : List.count c [a, b, c] = 1 := by
      rw [count_three]; simp [hac, hbc]
    rcases List.mem_cons.mp hq with rfl | hq2
    · have := hall b (by simp) (Ne.symm hab)
      omega
    rcases List.mem_cons.mp hq2 with rfl | hq3
    · have := hall a (by simp) hab
      omega
    rcases List.mem_cons.mp hq3 with rfl | hq4
    · have := hall a (by simp) hac
      omega
    · cases hq4
  · intro hnd
    by_cases hab : a = b
    · subst hab
      refine ⟨a, by simp, ?_⟩
      intro r hr hra
      by_cases hac : a = c
      · subst hac
        simp at hr
        exact absurd hr hra
      · have hrc : r = c := by
          rcases List.mem_cons.mp hr with rfl | hr2
          · exact absurd rfl hra
          rcases List.mem_cons.mp hr2 with rfl | hr3
          · exact absurd rfl hra
          · simpa using hr3
        subst hrc
        have h1 : List.count r [a, a, r] = 1 := by
          rw [count_three]; simp [Ne.symm hra]
        have h2 : List.count a [a, a, r] = 2 := by
          rw [count_three]; simp [hra]
        omega
    · by_cases hac : a = c
      · subst hac
        refine ⟨a, by simp, ?_⟩
        intro r hr hra
        have hrb : r = b := by
          rcases List.mem_cons.mp hr with rfl | hr2
          · exact absurd rfl hra
          rcases List.mem_cons.mp hr2 with rfl | hr3
          · rfl
          · simp at hr3
            exact absurd hr3 hra
        subst hrb
        have h1 : List.count r [a, r, a] = 1 := by
          rw [count_three]; simp [Ne.symm hra]
        have h2 : List.count a [a, r, a] = 2 := by
          rw [count_three]; simp [hra]
        omega
      · by_cases hbc : b = c
        · subst hbc
          refine ⟨b, by simp, ?_⟩
          intro r hr hrb
          have hra : r = a := by
            rcases List.mem_cons.mp hr with rfl | hr2
            · rfl
            rcases List.mem_cons.mp hr2 with rfl | hr3
            · exact absurd rfl hrb
            · simp at hr3
              exact absurd hr3 hrb
          subst hra
          have h1 : List.count r [r, b, b] = 1 := by
            rw [count_three]; simp [Ne.symm hrb]
          have h2 : List.count b [r, b, b] = 2 := by
            rw [count_three]; simp [hrb]
          omega
        · exact absurd ⟨hab, hac, hbc⟩ hnd

/-- C1: for every completed evaluation, the final score is the mode of the
collected sample scores: it occurs in the sample sequence, its occurrence
count is maximal among all sampled scores, and among scores tied for the
highest count it is the one whose first occurrence comes earliest in the
sample sequence. -/
theorem C1_final_score_is_first_seen_mode
    (key : Option String) (M : ℚ) (stream : List CallOutcome) (t : Trace)
    (h : (evaluateWithOpenai key M stream).outcome = .ok t) :
    t.finalScore ∈ t.scores ∧
    (∀ q ∈ t.scores, t.scores.count q ≤ t.scores.count t.finalScore) ∧
    (∀ q ∈ t.scores, t.scores.count q = t.scores.count t.finalScore →
      t.scores.indexOf t.finalScore ≤ t.scores.indexOf q) := by
  have hne : t.scores ≠ [] := eval_ok_scores_ne_nil h
  have hfin : t.finalScore = mostCommonD t.scores := (eval_ok_spec h).1
  rw [hfin]
  exact ⟨mostCommonD_mem hne,
    fun q hq => count_le_count_mostCommonD hne hq,
    fun q hq hc => mostCommonD_earliest hne hq hc⟩

/-- C1 witness: the theorem applied to the concrete stub run with scores
2, 1, 2 (final score 2). -/
theorem C1_final_score_is_first_seen_mode_witness :
    (Trace.finalScore ⟨2, [2, 1, 2], false⟩ ∈ Trace.scores ⟨2, [2, 1, 2], false⟩) ∧
    (∀ q ∈ Trace.scores ⟨2, [2, 1, 2], false⟩,
      (Trace.scores ⟨2, [2, 1, 2], false⟩).count q ≤
        (Trace.scores ⟨2, [2, 1, 2], false⟩).count (Trace.finalScore ⟨2, [2, 1, 2], false⟩)) ∧
    (∀ q ∈ Trace.scores ⟨2, [2, 1, 2], false⟩,
      (Trace.scores ⟨2, [2, 1, 2], false⟩).count q =
          (Trace.scores ⟨2, [2, 1, 2], false⟩).count (Trace.finalScore ⟨2, [2, 1, 2], false⟩) →
        (Trace.scores ⟨2, [2, 1, 2], false⟩).indexOf (Trace.finalScore ⟨2, [2, 1, 2], false⟩) ≤
          (Trace.scores ⟨2, [2, 1, 2], false⟩).indexOf q) :=
  C1_final_score_is_first_seen_mode (some "k") 2 [respNum 2, respNum 1, respNum 2]
    ⟨2, [2, 1, 2], false⟩ rfl

/-- C4: every completed evaluation carries exactly 3 samples (no
tie-break) or exactly 4 samples (one tie-break round); no other count is
possible. -/
theorem C4_sample_count_three_or_four
    (key : Option String) (M : ℚ) (stream : List CallOutcome) (t : Trace)
    (h : (evaluateWithOpenai key M stream).outcome = .ok t) :
    (t.scores.length = 3 ∧ t.tieBroken = false) ∨
      (t.scores.length = 4 ∧ t.tieBroken = true) := by
  rcases (eval_ok_spec h).2.2 with ⟨hb, hl⟩ | ⟨hb, hl⟩
  · exact Or.inl ⟨hl, hb⟩
  · exact Or.inr ⟨hl, hb⟩

/-- C4 witness: the theorem applied to a concrete majority run. -/
theorem C4_sample_count_three_or_four_witness :
    (Trace.scores ⟨2, [2, 2, 1], false⟩).length = 3 ∧
        Trace.tieBroken ⟨2, [2, 2, 1], false⟩ = false ∨
      (Trace.scores ⟨2, [2, 2, 1], false⟩).length = 4 ∧
        Trace.tieBroken ⟨2, [2, 2, 1], false⟩ = true :=
  C4_sample_count_three_or_four (some "k") 2 [respNum 2, respNum 2, respNum 1]
    ⟨2, [2, 2, 1], false⟩ rfl

/-- C10: the final score of a successful evaluation always equals the
recorded (post-clamp) score of at least one collected sample; no new
value is synthesized. -/
theorem C10_final_score_occurs_in_samples
    (key : Option String) (M : ℚ) (stream : List CallOutcome) (t : Trace)
    (h : (evaluateWithOpenai key M stream).outcome = .ok t) :
    t.finalScore ∈ t.scores := by
  have hne : t.scores ≠ [] := eval_ok_scores_ne_nil h
  rw [(eval_ok_spec h).1]
  exact mostCommonD_mem hne

/-- C10 witness: the theorem applied to a concrete tie-broken run. -/
theorem C10_final_score_occurs_in_samples_witness :
    Trace.finalScore ⟨1, [0, 1, 2, 1], true⟩ ∈ Trace.scores ⟨1, [0, 1, 2, 1], true⟩ :=
  C10_final_score_occurs_in_samples (some "k") 2
    [respNum 0, respNum 1, respNum 2, respNum 1] ⟨1, [0, 1, 2, 1], true⟩ rfl

/-- C9: with the credential unset (or empty, which Python treats as
falsy), the evaluation fails up front with the configuration
`ValueError` and issues zero round trips. -/
theorem C9_missing_credential_zero_calls (M : ℚ) (stream : List CallOutcome) :
    evaluateWithOpenai none M stream = ⟨.error (.valueError keyMissingMsg), 0, 0⟩ ∧
    evaluateWithOpenai (some "") M stream = ⟨.error (.valueError keyMissingMsg), 0, 0⟩ :=
  ⟨rfl, rfl⟩

/-- C2 counterexample: a judge response decoding to a JSON object with no
`score` member is accepted, not rejected: three such responses complete
the evaluation with final score 0 after exactly 3 round trips and no
retry, contradicting the claim that a missing `score` field is treated as
a malformed response. -/
theorem C2_counterexample :
    evaluateWithOpenai (some "k") 2
      [.response (.obj none), .response (.obj none), .response (.obj none)] =
      ⟨.ok ⟨0, [0, 0, 0], false⟩, 3, 0⟩ :=
  rfl

/-- C2 amended: parsing fails with a malformed-response error (retried by
the retry loop, with one sleep per retry) exactly when the text is not
valid JSON or the `score` field is present as a non-numeric string
(Python `float` raises `ValueError`); a `score` field present with a
non-string non-numeric value such as null, a list or an object (Python
`float` raises `TypeError`) is not retried: the `TypeError` escapes the
parse handler, is re-raised after one round trip, and aborts the whole
evaluation (wrapped by the top-level handler); and a JSON object with no
`score` key is accepted with the default score 0.0 (clamped), not
rejected. -/
theorem C2_parse_failure_classification (M : ℚ) (msg : String) :
    parseResponse M (.invalid msg) = .malformed msg ∧
    parseResponse M (.obj (some (.nonNumeric msg))) = .malformed msg ∧
    parseResponse M (.obj (some (.badType msg))) = .uncaught msg ∧
    parseResponse M (.obj none) = .ok (clampScore M 0) ∧
    (∀ (q : ℚ), parseResponse M (.obj (some (.num q))) = .ok (clampScore M q)) ∧
    (∀ (pre : String) (n : Nat) (rest : List CallOutcome),
      attemptLoop M pre (n + 2) (.response (.invalid msg) :: rest) =
        ⟨(attemptLoop M pre (n + 1) rest).outcome,
          (attemptLoop M pre (n + 1) rest).rest,
          (attemptLoop M pre (n + 1) rest).calls + 1,
          (attemptLoop M pre (n + 1) rest).sleeps + 1⟩) ∧
    (∀ (pre : String) (n : Nat) (rest : List CallOutcome),
      attemptLoop M pre (n + 2) (.response (.obj (some (.nonNumeric msg))) :: rest) =
        ⟨(attemptLoop M pre (n + 1) rest).outcome,
          (attemptLoop M pre (n + 1) rest).rest,
          (attemptLoop M pre (n + 1) rest).calls + 1,
          (attemptLoop M pre (n + 1) rest).sleeps + 1⟩) ∧
    (∀ (pre : String) (n : Nat) (rest : List CallOutcome),
      attemptLoop M pre (n + 1) (.response (.obj (some (.badType msg))) :: rest) =
        ⟨.error (.typeError msg), rest, 1, 0⟩) ∧
    (∀ (k : String), k.isEmpty = false → ∀ (tail : List CallOutcome),
      evaluateWithOpenai (some k) M (.response (.obj (some (.badType msg))) :: tail) =
        ⟨.error (wrapTopLevel (.typeError msg)), 1, 0⟩) := by
  refine ⟨rfl, rfl, rfl, rfl, fun _ => rfl, fun _ _ _ => rfl, fun _ _ _ => rfl,
    fun _ _ _ => rfl, fun k hk tail => ?_⟩
  simp only [evaluateWithOpenai, keyMissing, hk, Bool.false_eq_true, if_false,
    evalBody, sampleSlots, attemptLoop, parseResponse]

/-- C2 witness: the amended theorem applied to a concrete score field of
null-like type, whose uncaught `TypeError` aborts the evaluation after
one round trip, wrapped at top level. -/
theorem C2_parse_failure_classification_witness :
    String.isEmpty "k" = false ∧
    evaluateWithOpenai (some "k") 2
        [.response (.obj (some (.badType "float argument must be a string or a real number")))] =
      ⟨.error (wrapTopLevel (.typeError "float argument must be a string or a real number")), 1, 0⟩ ∧
    wrapTopLevel (.typeError "float argument must be a string or a real number") =
      .valueError "OpenAI evaluation failed: float argument must be a string or a real number" :=
  ⟨rfl,
    (C2_parse_failure_classification 2
      "float argument must be a string or a real number").2.2.2.2.2.2.2.2 "k" rfl [],
    rfl⟩

/-- C3 counterexample: a service error is not propagated unchanged: the
top-level handler re-raises it as a `ValueError` wrapping its message, so
the caller sees a different error value than the one raised. -/
theorem C3_counterexample :
    evaluateWithOpenai (some "k") 2 [.apiError "connection reset by peer"] =
      ⟨.error (.valueError "OpenAI evaluation failed: connection reset by peer"), 1, 0⟩ ∧
    PyExc.valueError "OpenAI evaluation failed: connection reset by peer" ≠
      PyExc.apiError "connection reset by peer" :=
  ⟨rfl, by simp⟩

/-- C3 amended: a service error on any round trip is never retried (the
retry loop re-raises it at once, consuming exactly one call and sleeping
zero times), and it aborts the whole evaluation; however it does not
propagate unchanged: the top-level handler re-raises it as
`ValueError("OpenAI evaluation failed: " + str(e))` unless its message
contains "OPENAI_API_KEY", in which case it is re-raised as-is. -/
theorem C3_service_error_not_retried
    (M : ℚ) (pre msg : String) (n : Nat) (rest : List CallOutcome) :
    attemptLoop M pre (n + 1) (.apiError msg :: rest) =
      ⟨.error (.apiError msg), rest, 1, 0⟩ ∧
    (∀ (k : String), k.isEmpty = false →
      evaluateWithOpenai (some k) M (.apiError msg :: rest) =
        ⟨.error (wrapTopLevel (.apiError msg)), 1, 0⟩) := by
  refine ⟨rfl, fun k hk => ?_⟩
  simp only [evaluateWithOpenai, keyMissing, hk, Bool.false_eq_true, if_false,
    evalBody, sampleSlots, attemptLoop]

/-- C3 witness: the amended theorem at a concrete service error, whose
wrapped form is the concrete `ValueError`. -/
theorem C3_service_error_not_retried_witness :
    (attemptLoop 2 mainExhaustPre 5 [.apiError "boom"] =
      ⟨.error (.apiError "boom"), [], 1, 0⟩) ∧
    String.isEmpty "k" = false ∧
    evaluateWithOpenai (some "k") 2 [.apiError "boom"] =
      ⟨.error (wrapTopLevel (.apiError "boom")), 1, 0⟩ ∧
    wrapTopLevel (.apiError "boom") = .valueError "OpenAI evaluation failed: boom" :=
  ⟨(C3_service_error_not_retried 2 mainExhaustPre "boom" 4 []).1, rfl,
    (C3_service_error_not_retried 2 mainExhaustPre "boom" 4 []).2 "k" rfl, rfl⟩

/-- C5: on malformed judge output the same round trip is retried with one
sleep between attempts, up to 5 total attempts per slot; five consecutive
parse failures issue exactly 5 round trips (never a 6th, whatever further
stub responses are available), sleep 4 times, and abort the whole
evaluation with the exhaustion `ValueError` carrying the last parse
failure detail. -/
theorem C5_retry_budget_exhaustion
    (M : ℚ) (pre m1 m2 m3 m4 m5 : String) (rest tail : List CallOutcome) :
    attemptLoop M pre 5
        (([m1, m2, m3, m4, m5].map fun m => CallOutcome.response (.invalid m)) ++ rest) =
      ⟨.error (.valueError (pre ++ m5)), rest, 5, 4⟩ ∧
    evaluateWithOpenai (some "k") M
        ((["b1", "b2", "b3", "b4", "b5"].map fun m => CallOutcome.response (.invalid m)) ++ tail) =
      ⟨.error (.valueError
          "OpenAI evaluation failed: Failed to parse OpenAI evaluation response after 5 attempts: b5"),
        5, 4⟩ :=
  ⟨rfl, rfl⟩

/-- C6: for every maxScore at least 1, a parser input whose score field is
numeric always yields a recorded score inside `[0, maxScore]`: out-of-range
values are silently clamped to the nearest bound and in-range values are
kept unchanged, never rejected. -/
theorem C6_numeric_scores_clamped (M q : ℚ) (hM : 1 ≤ M) :
    parseResponse M (.obj (some (.num q))) = .ok (clampScore M q) ∧
    0 ≤ clampScore M q ∧ clampScore M q ≤ M ∧
    (q < 0 → clampScore M q = 0) ∧
    (M < q → clampScore M q = M) ∧
    (0 ≤ q → q ≤ M → clampScore M q = q) := by
  have h0M : (0 : ℚ) ≤ M := le_trans zero_le_one hM
  refine ⟨rfl, ?_, ?_, ?_, ?_, ?_⟩ <;>
    simp only [clampScore, pyMin, pyMax] <;> intros <;> split_ifs <;> linarith

/-- C6 witness: the theorem at maxScore 2 and raw score 5, which clamps
to 2. -/
theorem C6_numeric_scores_clamped_witness :
    (1 : ℚ) ≤ 2 ∧
    parseResponse 2 (.obj (some (.num 5))) = .ok (clampScore 2 5) ∧
    clampScore 2 5 = 2 :=
  ⟨by norm_num, (C6_numeric_scores_clamped 2 5 (by norm_num)).1, rfl⟩

/-- C7 counterexample: the final score need not be an integer: a judge
that three times returns score 1/2 (a numeric, non-integer JSON value)
completes the evaluation with final score 1/2, which is not an integer. -/
theorem C7_counterexample :
    evaluateWithOpenai (some "k") 2
        [respNum (mkRat 1 2), respNum (mkRat 1 2), respNum (mkRat 1 2)] =
      ⟨.ok ⟨mkRat 1 2, [mkRat 1 2, mkRat 1 2, mkRat 1 2], false⟩, 3, 0⟩ ∧
    ¬ ∃ n : ℤ, (mkRat 1 2 : ℚ) = (n : ℚ) := by
  refine ⟨rfl, ?_⟩
  rintro ⟨n, hn⟩
  have h2 : (mkRat 1 2 : ℚ).den = 2 := by decide
  rw [hn, Rat.den_intCast] at h2
  cases h2

/-- C7 amended: the final score is a float equal to one of the collected
(clamped) sample scores, so it is an integer whenever every sample score
is an integer; the code itself never enforces integrality. -/
theorem C7_final_integer_only_if_samples_integer
    (key : Option String) (M : ℚ) (stream : List CallOutcome) (t : Trace)
    (h : (evaluateWithOpenai key M stream).outcome = .ok t)
    (hall : ∀ q ∈ t.scores, q.den = 1) :
    t.finalScore.den = 1 := by
  have hne : t.scores ≠ [] := eval_ok_scores_ne_nil h
  have hmem : t.finalScore ∈ t.scores := by
    rw [(eval_ok_spec h).1]
    exact mostCommonD_mem hne
  exact hall _ hmem

/-- C7 witness: the amended theorem at an all-integer run. -/
theorem C7_final_integer_only_if_samples_integer_witness :
    (evaluateWithOpenai (some "k") 2 [respNum 2, respNum 2, respNum 1]).outcome =
      .ok ⟨2, [2, 2, 1], false⟩ ∧
    (Trace.finalScore ⟨2, [2, 2, 1], false⟩).den = 1 :=
  ⟨rfl, C7_final_integer_only_if_samples_integer (some "k") 2
    [respNum 2, respNum 2, respNum 1] ⟨2, [2, 2, 1], false⟩ rfl
    (by intro q hq; simp only [Trace.scores] at hq; rcases List.mem_cons.mp hq with rfl | hq2
        · decide
        rcases List.mem_cons.mp hq2 with rfl | hq3
        · decide
        rcases List.mem_cons.mp hq3 with rfl | hq4
        · decide
        · cases hq4)⟩

/-- C8: after the first 3 samples, exactly one tie-break sample is
appended (4 samples total) if and only if the three scores are pairwise
distinct (no score has a strict plurality); when some score's count
strictly exceeds every other score's count, no tie-break happens and the
result keeps exactly 3 samples. -/
theorem C8_tie_break_iff_no_strict_plurality
    (key : Option String) (M : ℚ) (stream : List CallOutcome) (t : Trace)
    (h : (evaluateWithOpenai key M stream).outcome = .ok t)
    (a b c : ℚ) (h3 : t.scores.take 3 = [a, b, c]) :
    (t.tieBroken = true ↔ a ≠ b ∧ a ≠ c ∧ b ≠ c) ∧
    (t.tieBroken = true ↔ t.scores.length = 4) ∧
    (t.tieBroken = false ↔
      ∃ q ∈ ([a, b, c] : List ℚ), ∀ r ∈ ([a, b, c] : List ℚ), r ≠ q →
        List.count r [a, b, c] < List.count q [a, b, c]) := by
  obtain ⟨hfin, htb, hdisj⟩ := eval_ok_spec h
  rw [h3] at htb
  have hnt : needsTieBreak [a, b, c] = true ↔ (a ≠ b ∧ a ≠ c ∧ b ≠ c) := by
    simp [needsTieBreak, maxCount_three_eq_one_iff]
  refine ⟨?_, ?_, ?_⟩
  · rw [htb]; exact hnt
  · rcases hdisj with ⟨hb, hl⟩ | ⟨hb, hl⟩ <;> rw [hb, hl] <;> simp
  · rw [htb, plurality_three_iff, ← hnt]
    simp

/-- C8 witness: the theorem applied to the concrete tie-broken run with
first three scores 0, 1, 2. -/
theorem C8_tie_break_iff_no_strict_plurality_witness :
    (Trace.tieBroken ⟨1, [0, 1, 2, 1], true⟩ = true ↔
      (0 : ℚ) ≠ 1 ∧ (0 : ℚ) ≠ 2 ∧ (1 : ℚ) ≠ 2) ∧
    (Trace.tieBroken ⟨1, [0, 1, 2, 1], true⟩ = true ↔
      (Trace.scores ⟨1, [0, 1, 2, 1], true⟩).length = 4) ∧
    (Trace.tieBroken ⟨1, [0, 1, 2, 1], true⟩ = false ↔
      ∃ q ∈ ([0, 1, 2] : List ℚ), ∀ r ∈ ([0, 1, 2] : List ℚ), r ≠ q →
        List.count r [0, 1, 2] < List.count q [0, 1, 2]) :=
  C8_tie_break_iff_no_strict_plurality (some "k") 2
    [respNum 0, respNum 1, respNum 2, respNum 1] ⟨1, [0, 1, 2, 1], true⟩ rfl
    0 1 2 rfl

end LlmJudge
